import Mathlib

/-!
Shallow embedding of the Bugzilla MCP server (src/bugzilla_api.py, src/config.py).

Python dictionaries, lists, strings, integers and booleans that flow through the
tool functions are modelled by the inductive `JVal`.  A Python dictionary is a
`JVal.obj` carrying its entries in insertion order, matching CPython's ordered
dictionaries.  Uncaught Python exceptions are modelled by `PyError`; a function
that may raise returns `Except PyError _`.  The external `bugzilla.Bugzilla`
client is an explicit `Adapter` parameter whose remote calls may fail with an
exception message.  The cache file `.bugzilla.cache.json` is the single field of
the file-system state `FS`.
-/

/-- Model of a Python/JSON value: strings, integers, booleans, lists,
insertion-ordered dictionaries and `None`. -/
inductive JVal where
  | str (s : String)
  | num (n : Int)
  | bool (b : Bool)
  | arr (xs : List JVal)
  | obj (entries : List (String × JVal))
  | null
deriving Repr

/-- Model of an uncaught Python exception: the bare `assert` failures at the top
of the tool functions, a `TypeError` (as raised by `fp.write` on a non-string
argument), and any other exception carrying its `str(e)` message. -/
inductive PyError where
  | assertionError
  | typeError (msg : String)
  | exception (msg : String)
deriving Repr, DecidableEq

/-- Python truthiness of an optional-string argument whose default is `None`:
`if product:` is true exactly when the argument was supplied and is non-empty. -/
def truthy : Option String → Bool
  | none => false
  | some s => !s.isEmpty

/-- Python `x or d` on an optional string `x` (used in
`query_params['product'] = product or "SUSEConnect"` and friends). -/
def pyOr (v : Option String) (d : String) : String :=
  match v with
  | none => d
  | some s => if s.isEmpty then d else s

/-- One conditional entry of the query-parameter dictionary:
`if product: query_params['product'] = product or "SUSEConnect"`. -/
def optEntry (key : String) (v : Option String) (d : String) : List (String × JVal) :=
  if truthy v then [(key, JVal.str (pyOr v d))] else []

/-- The query-parameter dictionary assembled by `query_bugs` (lines 93-112 of
src/bugzilla_api.py): seven conditional filter entries followed by the
unconditional `limit` (capped with `min(limit, 20)`) and `offset`. -/
def buildQueryParams (product component status priority severity assigned_to creator :
    Option String) (limit offset : Int) : List (String × JVal) :=
  optEntry "product" product "SUSEConnect" ++
  optEntry "component" component "General" ++
  optEntry "status" status "NEW" ++
  optEntry "priority" priority "P2 - High" ++
  optEntry "severity" severity "Medium" ++
  optEntry "assigned_to" assigned_to "" ++
  optEntry "creator" creator "" ++
  [("limit", JVal.num (min limit 20)), ("offset", JVal.num offset)]

/-- Dictionary-key membership test on an entry list. -/
def hasKey (l : List (String × JVal)) (k : String) : Bool :=
  l.any (fun e => e.1 == k)

/-- Dictionary lookup on an entry list (first matching key, as in a Python dict
where each key occurs at most once). -/
def getVal (l : List (String × JVal)) (k : String) : Option JVal :=
  (l.find? (fun e => e.1 == k)).map (·.2)

/-- The keys of a `JVal.obj`, in insertion order. -/
def jkeys : JVal → List String
  | .obj entries => entries.map (·.1)
  | _ => []

/-- Dictionary lookup on a `JVal.obj`. -/
def jget : JVal → String → Option JVal
  | .obj entries, k => getVal entries k
  | _, _ => none

/-- The attributes of a `bugzilla.bug.Bug` object that `convert_bug_to_dict`
reads.  `creator_detail_email` stands for `bug.creator_detail["email"]`; the
creation time is kept as a string. -/
structure Bug where
  product : String
  id : Int
  priority : String
  creation_time : String
  status : String
  summary : String
  severity : String
  cc : List String
  creator_detail_email : String
  platform : String
  keywords : List String
  component : String
  groups : List String
  weburl : String
  is_confirmed : Bool

/-- Embedding of `convert_bug_to_dict` (src/bugzilla_api.py lines 202-219):
the flat normalized dictionary, entries in source order. -/
def convert_bug_to_dict (bug : Bug) : JVal :=
  JVal.obj [
    ("product_name", JVal.str bug.product),
    ("bug_id", JVal.num bug.id),
    ("bug_priority", JVal.str bug.priority),
    ("created", JVal.str bug.creation_time),
    ("status", JVal.str bug.status),
    ("summary", JVal.str bug.summary),
    ("severity", JVal.str bug.severity),
    ("bug_cc", JVal.arr (bug.cc.map JVal.str)),
    ("creator", JVal.str bug.creator_detail_email),
    ("platform", JVal.str bug.platform),
    ("keywords", JVal.str (String.intercalate ";" bug.keywords)),
    ("component", JVal.str bug.component),
    ("groups", JVal.str (String.intercalate " " bug.groups)),
    ("weburl", JVal.str bug.weburl),
    ("confirmed", JVal.bool bug.is_confirmed)
  ]

/-- A product dictionary as returned by `bzapi.getproducts()`; only its
`name` entry is read. -/
structure Product where
  name : String

/-- A value dictionary inside a bug field's `values` list; only its `name`
entry is read. -/
structure FieldValue where
  name : String

/-- A field dictionary as returned by `bzapi.getbugfields()`:
`field['name']` plus the optional `values` list read via
`field.get('values', [])`. -/
structure BugField where
  name : String
  values : Option (List FieldValue)

/-- The external `bugzilla.Bugzilla` client handle `bzapi`.  Each remote call
either succeeds or raises an exception with message `e` (`str(e)`). -/
structure Adapter where
  logged_in : Bool
  getbug : Int → Except String Bug
  build_query : List (String × JVal) → Except String (List (String × JVal))
  query : List (String × JVal) → Except String (List Bug)
  getproducts : Except String (List Product)
  getbugfields : Except String (List BugField)

/-- Embedding of `get_bug` (src/bugzilla_api.py lines 39-43): assert the login
state, fetch the bug, normalize it.  Failures of `bzapi.getbug` propagate. -/
def get_bug (bz : Adapter) (bug_id : Int) : Except PyError JVal :=
  if bz.logged_in = false then .error .assertionError
  else
    match bz.getbug bug_id with
    | .error e => .error (.exception e)
    | .ok bug => .ok (convert_bug_to_dict bug)

/-- Embedding of `query_bugs` (src/bugzilla_api.py lines 45-137).  The
parameter dictionary is assembled, `bzapi.build_query` runs OUTSIDE the
`try` block (line 113), then the `try` covers `bzapi.query` and the
conversion loop; an exception there yields the `Query failed` payload. -/
def query_bugs (bz : Adapter) (product component status priority severity assigned_to creator :
    Option String) (limit offset : Int) : Except PyError JVal :=
  if bz.logged_in = false then .error .assertionError
  else
    let query_params := buildQueryParams product component status priority severity
      assigned_to creator limit offset
    match bz.build_query query_params with
    | .error e => .error (.exception e)
    | .ok params =>
      match bz.query params with
      | .error e =>
        .ok (JVal.obj [
          ("error", JVal.str ("Query failed: " ++ e)),
          ("query_parameters", JVal.obj query_params)])
      | .ok bugs =>
        .ok (JVal.obj [
          ("total_results", JVal.num bugs.length),
          ("offset", JVal.num offset),
          ("limit", JVal.num (min limit 20)),
          ("query_parameters", JVal.obj query_params),
          ("bugs", JVal.arr (bugs.map convert_bug_to_dict))])

/-! ## Configuration (src/config.py) -/

/-- Python `v.rstrip('/')`: remove every trailing `'/'` character. -/
def rstrip_slash (s : String) : String :=
  String.mk ((s.data.reverse.dropWhile (fun c => c == '/')).reverse)

/-- Python `v.startswith(p)` for one alternative of the tuple argument. -/
def startswith (s p : String) : Bool := p.data.isPrefixOf s.data

/-- Python `v.upper()` (the configuration values are ASCII). -/
def str_upper (s : String) : String := String.mk (s.data.map Char.toUpper)

/-- Embedding of the `validate_url` validator (src/config.py lines 74-79). -/
def validate_url (v : String) : Except String String :=
  if startswith v "http://" || startswith v "https://" then .ok (rstrip_slash v)
  else .error "Bugzilla URL must start with http:// or https://"

/-- The valid log levels of the `validate_log_level` validator. -/
def valid_levels : List String := ["DEBUG", "INFO", "WARNING", "ERROR", "CRITICAL"]

/-- Embedding of the `validate_log_level` validator (src/config.py lines
81-87): membership of the upper-cased value in the fixed set. -/
def validate_log_level (v : String) : Except String String :=
  if valid_levels.contains (str_upper v) then .ok (str_upper v)
  else .error "Log level must be one of the valid levels"

/-- Embedding of the `validate_port` validator (src/config.py lines 89-94). -/
def validate_port (v : Int) : Except String Int :=
  if 1 ≤ v ∧ v ≤ 65535 then .ok v
  else .error "Port must be between 1 and 65535"

/-- The validated fields of `BugzillaConfig`.  The remaining settings fields
(API key, username, password, host, timeout, retries, debug flag) carry no
validator and are omitted from the model. -/
structure BugzillaConfig where
  bugzilla_url : String
  server_port : Int
  log_level : String
deriving Repr, DecidableEq

/-- Construction of a `BugzillaConfig`: pydantic runs the per-field validators
(URL, then port, then log level, in field-declaration order); construction
succeeds only when every validator accepts. -/
def mkBugzillaConfig (bugzilla_url : String) (server_port : Int) (log_level : String) :
    Except String BugzillaConfig := do
  let u ← validate_url bugzilla_url
  let p ← validate_port server_port
  let l ← validate_log_level log_level
  .ok ⟨u, p, l⟩

/-! ## A JSON reader modelling `json.loads` on a JSON subset -/

/-- The opening brace character of a JSON object. -/
def obrace : Char := Char.ofNat 123

/-- The closing brace character of a JSON object. -/
def cbrace : Char := Char.ofNat 125

/-- Whitespace characters skipped by the JSON reader. -/
def isJsonWs (c : Char) : Bool := c == ' ' || c == '\n' || c == '\t' || c == '\r'

/-- Skip leading whitespace. -/
def skipWs : List Char → List Char
  | [] => []
  | c :: rest => if isJsonWs c then skipWs rest else c :: rest

/-- Parse the body of a JSON string after the opening quote, up to and
including the closing quote.  Escape sequences are not supported: any
backslash is rejected, so every string this reader accepts is also accepted,
with the same value, by `json.loads`. -/
def parseStringBody : List Char → Except String (String × List Char)
  | [] => .error "unterminated string"
  | c :: rest =>
    if c == '"' then .ok ("", rest)
    else if c == '\\' then .error "escapes not supported"
    else
      match parseStringBody rest with
      | .error e => .error e
      | .ok (s, rem) => .ok (String.mk (c :: s.data), rem)

/-- Parse a maximal run of decimal digits. -/
def parseDigits : List Char → (List Nat × List Char)
  | [] => ([], [])
  | c :: rest =>
    if c.isDigit then
      let (ds, rem) := parseDigits rest
      ((c.toNat - 48) :: ds, rem)
    else ([], c :: rest)

/-- Decimal value of a digit list. -/
def digitsVal (ds : List Nat) : Nat := ds.foldl (fun acc d => acc * 10 + d) 0

/-- Parse an integer literal: optional minus sign and digits, with no leading
zero on a multi-digit number and no fraction or exponent (a non-integer
number is rejected, keeping the reader inside the `json.loads` subset). -/
def parseNumber (cs : List Char) : Except String (JVal × List Char) :=
  let (neg, cs1) := match cs with
    | '-' :: rest => (true, rest)
    | _ => (false, cs)
  match parseDigits cs1 with
  | ([], _) => .error "invalid number"
  | (ds, rem) =>
    if ds.head? = some 0 ∧ ds.length > 1 then .error "invalid number"
    else
      match rem with
      | '.' :: _ => .error "fractions not supported"
      | 'e' :: _ => .error "exponents not supported"
      | 'E' :: _ => .error "exponents not supported"
      | _ => .ok (JVal.num (if neg then -(digitsVal ds : Int) else (digitsVal ds : Int)), rem)

/-- Match an expected literal character sequence. -/
def dropLit : List Char → List Char → Option (List Char)
  | [], cs => some cs
  | _, [] => none
  | e :: es, c :: cs => if c == e then dropLit es cs else none

mutual

/-- Parse one JSON value (fueled recursive-descent reader). -/
def parseVal : Nat → List Char → Except String (JVal × List Char)
  | 0, _ => .error "input too nested"
  | Nat.succ fuel, cs =>
    match skipWs cs with
    | [] => .error "unexpected end of input"
    | c :: rest =>
      if c == '"' then
        match parseStringBody rest with
        | .error e => .error e
        | .ok (s, rem) => .ok (JVal.str s, rem)
      else if c == '[' then
        match skipWs rest with
        | ']' :: rem => .ok (JVal.arr [], rem)
        | other =>
          match parseElems fuel other with
          | .error e => .error e
          | .ok (vs, rem) => .ok (JVal.arr vs, rem)
      else if c == obrace then
        match skipWs rest with
        | [] => .error "unterminated object"
        | d :: rem =>
          if d == cbrace then .ok (JVal.obj [], rem)
          else
            match parseMembers fuel (d :: rem) with
            | .error e => .error e
            | .ok (ms, rem2) => .ok (JVal.obj ms, rem2)
      else if c == 'n' then
        match dropLit ['u', 'l', 'l'] rest with
        | some rem => .ok (JVal.null, rem)
        | none => .error "invalid literal"
      else if c == 't' then
        match dropLit ['r', 'u', 'e'] rest with
        | some rem => .ok (JVal.bool true, rem)
        | none => .error "invalid literal"
      else if c == 'f' then
        match dropLit ['a', 'l', 's', 'e'] rest with
        | some rem => .ok (JVal.bool false, rem)
        | none => .error "invalid literal"
      else if c == '-' || c.isDigit then parseNumber (c :: rest)
      else .error "unexpected character"

/-- Parse the comma-separated elements of a non-empty JSON array, up to and
including the closing bracket. -/
def parseElems : Nat → List Char → Except String (List JVal × List Char)
  | 0, _ => .error "input too nested"
  | Nat.succ fuel, cs =>
    match parseVal fuel cs with
    | .error e => .error e
    | .ok (v, rem) =>
      match skipWs rem with
      | ']' :: rem2 => .ok ([v], rem2)
      | ',' :: rem2 =>
        match parseElems fuel rem2 with
        | .error e => .error e
        | .ok (vs, rem3) => .ok (v :: vs, rem3)
      | _ => .error "expected comma or closing bracket"

/-- Parse the comma-separated members of a non-empty JSON object, up to and
including the closing brace. -/
def parseMembers : Nat → List Char → Except String (List (String × JVal) × List Char)
  | 0, _ => .error "input too nested"
  | Nat.succ fuel, cs =>
    match skipWs cs with
    | '"' :: rest =>
      match parseStringBody rest with
      | .error e => .error e
      | .ok (k, rem) =>
        match skipWs rem with
        | ':' :: rem2 =>
          match parseVal fuel rem2 with
          | .error e => .error e
          | .ok (v, rem3) =>
            match skipWs rem3 with
            | [] => .error "unterminated object"
            | c :: rem4 =>
              if c == cbrace then .ok ([(k, v)], rem4)
              else if c == ',' then
                match parseMembers fuel rem4 with
                | .error e => .error e
                | .ok (ms, rem5) => .ok ((k, v) :: ms, rem5)
              else .error "expected comma or closing brace"
        | _ => .error "expected colon"
    | _ => .error "expected string key"

end

/-- Model of `json.loads` on the JSON subset above: parse one value and
require only whitespace after it.  The empty string is rejected, as
`json.loads("")` raises `json.JSONDecodeError`. -/
def json_loads (s : String) : Except String JVal :=
  match parseVal (2 * s.length + 2) s.data with
  | .error e => .error e
  | .ok (v, rem) =>
    match skipWs rem with
    | [] => .ok v
    | _ => .error "extra data"

/-! ## The search-options cache (src/bugzilla_api.py lines 140-199) -/

/-- The file-system state seen by `get_search_options`: the contents of
`.bugzilla.cache.json` in the working directory, or `none` when the file
does not exist. -/
structure FS where
  cache : Option String
deriving Repr, DecidableEq

/-- Python text-mode `fp.write(x)`: succeeds only on a string argument; any
other value raises `TypeError`.  `get_search_options` passes the `fields`
dictionary itself to `fp.write` (line 197). -/
def fileWrite : JVal → Except PyError String
  | .str s => .ok s
  | _ => .error (.typeError "write() argument must be str, not dict")

/-- The hardcoded `search_tips` block (lines 182-188). -/
def search_tips : JVal :=
  JVal.obj [
    ("status", JVal.str "Common values: NEW, ASSIGNED, RESOLVED, VERIFIED, CLOSED"),
    ("priority", JVal.str "Common values: P1 (highest) to P5 (lowest)"),
    ("severity", JVal.str "Common values: blocker, critical, major, normal, minor, trivial"),
    ("wildcards", JVal.str "Use * for wildcards in text searches"),
    ("multiple_values", JVal.str "Separate multiple values with commas")]

/-- The field-extraction loop (lines 169-175): the last field named
`bug_status` / `priority` / `bug_severity` provides the status / priority /
severity option lists; `field.get('values', [])` defaults to the empty
list; every other field name is ignored. -/
def extract_options (bugfields : List BugField) :
    List String × List String × List String :=
  bugfields.foldl
    (fun acc field =>
      if field.name == "bug_status" then
        ((field.values.getD []).map (·.name), acc.2.1, acc.2.2)
      else if field.name == "priority" then
        (acc.1, (field.values.getD []).map (·.name), acc.2.2)
      else if field.name == "bug_severity" then
        (acc.1, acc.2.1, (field.values.getD []).map (·.name))
      else acc)
    ([], [], [])

/-- The assembled `fields` dictionary (lines 177-189). -/
def assemble_fields (product_names status_options priority_options severity_options :
    List String) : List (String × JVal) :=
  [("products", JVal.arr (product_names.map JVal.str)),
   ("statuses", JVal.arr (status_options.map JVal.str)),
   ("priorities", JVal.arr (priority_options.map JVal.str)),
   ("severities", JVal.arr (severity_options.map JVal.str)),
   ("search_tips", search_tips)]

/-- The `try` block of the derivation path (lines 156-189): the two remote
calls may raise; on success the `fields` dictionary is assembled.  `fields`
is reassigned wholesale as the last statement of the block, so an exception
always leaves `fields` as the initial empty dictionary. -/
def derive_fields (bz : Adapter) : Except String (List (String × JVal)) :=
  match bz.getproducts with
  | .error e => .error e
  | .ok products =>
    match bz.getbugfields with
    | .error e => .error e
    | .ok bugfields =>
      let product_names := products.map (·.name)
      let (status_options, priority_options, severity_options) := extract_options bugfields
      .ok (assemble_fields product_names status_options priority_options severity_options)

/-- The `finally` clause (lines 194-197): when the `fields` dictionary is
non-empty, `open(cache_path, "w+")` creates or truncates the cache file and
`fp.write(fields)` is attempted on the dictionary itself; an exception
raised by the write replaces the pending outcome and leaves the truncated
(empty) file behind.  `pending` is the in-flight return value. -/
def finally_write (fields : List (String × JVal)) (pending : JVal) (fs : FS) :
    Except PyError JVal × FS :=
  if fields.length > 0 then
    match fileWrite (JVal.obj fields) with
    | .error e => (.error e, ⟨some ""⟩)
    | .ok s => (.ok pending, ⟨some s⟩)
  else (.ok pending, fs)

/-- Embedding of `get_search_options` (src/bugzilla_api.py lines 140-199),
returning the call's outcome together with the resulting file-system state.
Cache hit: read the file and `json.loads` it (a parse failure propagates
uncaught) and return the parsed value unchanged.  Cache miss: derive the
options; on an exception the `except` clause makes the error payload the
pending return value while `fields` is still the empty dictionary, so the
`finally` write is skipped; on success the assembled dictionary is the
pending value and the `finally` write runs on it. -/
def get_search_options (bz : Adapter) (fs : FS) : Except PyError JVal × FS :=
  if bz.logged_in = false then (.error .assertionError, fs)
  else
    match fs.cache with
    | some raw =>
      match json_loads raw with
      | .error e => (.error (.exception e), fs)
      | .ok v => (.ok v, fs)
    | none =>
      match derive_fields bz with
      | .error e =>
        finally_write []
          (JVal.obj [("error", JVal.str ("Failed to get search options: " ++ e))]) fs
      | .ok fields =>
        finally_write fields (JVal.obj fields) fs

/-! ## Concrete fixtures used by the closed theorems -/

/-- An adapter whose derivation succeeds: one product and the three
interesting bug fields. -/
def adapterA : Adapter := {
  logged_in := true
  getbug := fun _ => .error "unused"
  build_query := fun qp => .ok qp
  query := fun _ => .ok []
  getproducts := .ok [⟨"SUSEConnect"⟩]
  getbugfields := .ok [⟨"bug_status", some [⟨"NEW"⟩, ⟨"RESOLVED"⟩]⟩,
                       ⟨"priority", some [⟨"P1"⟩, ⟨"P2"⟩]⟩,
                       ⟨"bug_severity", some [⟨"Medium"⟩]⟩,
                       ⟨"other", none⟩] }

/-- A second adapter whose derivation succeeds, with different metadata. -/
def adapterB : Adapter := { adapterA with
  getproducts := .ok [⟨"ProdB"⟩, ⟨"ProdC"⟩]
  getbugfields := .ok [⟨"bug_status", some [⟨"CONFIRMED"⟩]⟩] }

/-- An adapter whose `getproducts` call raises. -/
def adapterFail : Adapter := { adapterA with getproducts := .error "boom" }

/-- An adapter whose `build_query` (query-compilation) call raises. -/
def adapterCompileFail : Adapter := { adapterA with
  build_query := fun _ => .error "compile boom" }

/-- An adapter whose `query` (query-execution) call raises. -/
def adapterExecFail : Adapter := { adapterA with
  query := fun _ => .error "exec boom" }

/-- An adapter that is not logged in. -/
def adapterLoggedOut : Adapter := { adapterA with logged_in := false }

/-- A bug object carrying every modelled field, with multi-element
`keywords` and `groups`. -/
def sampleBug : Bug := {
  product := "SUSEConnect", id := 7, priority := "P2",
  creation_time := "2024-01-01T00:00:00Z", status := "NEW", summary := "a summary",
  severity := "Medium", cc := ["cc1@example.org", "cc2@example.org"],
  creator_detail_email := "creator@example.org", platform := "x86_64",
  keywords := ["kw1", "kw2"], component := "General", groups := ["g1", "g2"],
  weburl := "https://bugzilla.example.org/show_bug.cgi?id=7", is_confirmed := true }

/-! ## Helper lemmas -/

/-- Looking a key up past a conditional filter entry whose key differs. -/
theorem getVal_optEntry_append (key : String) (v : Option String) (d : String)
    (rest : List (String × JVal)) (k : String) (hne : (key == k) = false) :
    getVal (optEntry key v d ++ rest) k = getVal rest k := by
  unfold optEntry
  split
  · simp [getVal, List.find?_cons, hne]
  · simp

/-- Key membership across a conditional filter entry. -/
theorem hasKey_optEntry_append (key : String) (v : Option String) (d : String)
    (rest : List (String × JVal)) (k : String) :
    hasKey (optEntry key v d ++ rest) k
      = ((truthy v && (key == k)) || hasKey rest k) := by
  unfold optEntry
  split
  · next h => simp [hasKey, h]
  · next h =>
    rw [Bool.not_eq_true] at h
    simp [h]

/-! ## Claims -/

/-- Claim C1 (refuted; evidence of the code bug).  With no cache file present
and a derivation that succeeds, the first `get_search_options` call performs
the adapter round trip but does NOT return the assembled options and does
NOT persist them as serialized structured text: the `finally` clause passes
the `fields` dictionary itself to `fp.write`, which raises `TypeError`, and
`open(..., "w+")` has already truncated the file, so an empty cache file is
left behind.  The second call then reads that empty file and crashes inside
`json.loads` instead of reproducing the first call's result. -/
theorem cache_roundtrip_write_typeerror :
    (get_search_options adapterA ⟨none⟩).1
      = .error (.typeError "write() argument must be str, not dict")
    ∧ (get_search_options adapterA ⟨none⟩).2 = ⟨some ""⟩
    ∧ (get_search_options adapterA (get_search_options adapterA ⟨none⟩).2).1
      = .error (.exception "unexpected end of input") :=
  ⟨rfl, rfl, rfl⟩

/-- Claim C2: whenever the cache file exists and its contents parse as
structured data, `get_search_options` returns the parsed value unchanged —
for every adapter (no re-derivation), with no shape validation and no
rewrite of the file. -/
theorem corrupt_cache_passthrough (bz : Adapter) (fs : FS) (raw : String) (v : JVal)
    (hl : bz.logged_in = true) (hc : fs.cache = some raw)
    (hp : json_loads raw = .ok v) :
    get_search_options bz fs = (.ok v, fs) := by
  simp [get_search_options, hl, hc, hp]

/-- Witness for C2: a cache file holding `{"foo": 1}` — a shape unrelated to
SearchOptions — is returned verbatim and left untouched. -/
theorem corrupt_cache_passthrough_witness :
    get_search_options adapterA ⟨some "\x7b\"foo\": 1\x7d"⟩
      = (.ok (JVal.obj [("foo", JVal.num 1)]), ⟨some "\x7b\"foo\": 1\x7d"⟩) :=
  corrupt_cache_passthrough adapterA ⟨some "\x7b\"foo\": 1\x7d"⟩ "\x7b\"foo\": 1\x7d"
    (JVal.obj [("foo", JVal.num 1)]) rfl rfl rfl

/-- Claim C6 (refuted; evidence of the code bug).  On the derivation path the
assembled `fields` dictionary is non-empty, yet it is never persisted
verbatim: the `finally` write of the dictionary raises `TypeError` and the
cache file is left holding the empty string rather than the serialized
SearchOptions. -/
theorem nonempty_options_not_persisted :
    (∃ fields, derive_fields adapterB = .ok fields ∧ fields.length > 0)
    ∧ (get_search_options adapterB ⟨none⟩).2 = ⟨some ""⟩
    ∧ (get_search_options adapterB ⟨none⟩).1
      = .error (.typeError "write() argument must be str, not dict") :=
  ⟨⟨assemble_fields ["ProdB", "ProdC"] ["CONFIRMED"] [] [], rfl, by decide⟩, rfl, rfl⟩

/-- Claim C7: any failure raised by the adapter during the derivation path is
caught; the call does not propagate an exception and returns the structured
payload whose single `error` entry carries the message
`Failed to get search options: <cause>`; the file system is untouched. -/
theorem search_options_failure_semantics (bz : Adapter) (fs : FS) (e : String)
    (hl : bz.logged_in = true) (hc : fs.cache = none)
    (hf : derive_fields bz = .error e) :
    get_search_options bz fs
      = (.ok (JVal.obj [("error", JVal.str ("Failed to get search options: " ++ e))]), fs) := by
  simp [get_search_options, hl, hc, hf, finally_write]

/-- Witness for C7: an adapter whose `getproducts` raises `boom` yields the
error payload and leaves no cache file. -/
theorem search_options_failure_semantics_witness :
    get_search_options adapterFail ⟨none⟩
      = (.ok (JVal.obj [("error", JVal.str "Failed to get search options: boom")]), ⟨none⟩) :=
  search_options_failure_semantics adapterFail ⟨none⟩ "boom" rfl rfl rfl

/-- Claim C10: when the adapter is not logged in, each of `get_bug`,
`query_bugs` and `get_search_options` raises an assertion failure — for
every adapter behaviour and every file-system state, so before any tracker
round trip or cache access — and the failure surfaces as a hard error, not
as a structured `error` payload; the file system is untouched. -/
theorem login_precondition (bz : Adapter) (hl : bz.logged_in = false) :
    (∀ bug_id, get_bug bz bug_id = .error .assertionError)
    ∧ (∀ (product component status priority severity assigned_to creator : Option String)
        (limit offset : Int),
        query_bugs bz product component status priority severity assigned_to creator
          limit offset = .error .assertionError)
    ∧ (∀ fs, get_search_options bz fs = (.error .assertionError, fs)) := by
  refine ⟨?_, ?_, ?_⟩ <;> intros <;> simp [get_bug, query_bugs, get_search_options, hl]

/-- Witness for C10: the three operations on a concrete logged-out adapter. -/
theorem login_precondition_witness :
    get_bug adapterLoggedOut 1 = .error .assertionError
    ∧ query_bugs adapterLoggedOut none none none none none none none 20 0
      = .error .assertionError
    ∧ get_search_options adapterLoggedOut ⟨none⟩ = (.error .assertionError, ⟨none⟩) :=
  ⟨(login_precondition adapterLoggedOut rfl).1 1,
   (login_precondition adapterLoggedOut rfl).2.1 none none none none none none none 20 0,
   (login_precondition adapterLoggedOut rfl).2.2 ⟨none⟩⟩

/-- Claim C3 counterexample: `bzapi.build_query` runs outside the `try`
block, so a failure raised during the query-compilation step propagates to
the caller as a hard error; the call does not return the structured
`Query failed` payload the claim requires. -/
theorem query_compile_failure_propagates :
    query_bugs adapterCompileFail none none none none none none none 20 0
      = .error (.exception "compile boom")
    ∧ ∀ v, query_bugs adapterCompileFail none none none none none none none 20 0
        ≠ .ok v := by
  refine ⟨rfl, ?_⟩
  intro v h
  rw [show query_bugs adapterCompileFail none none none none none none none 20 0
      = Except.error (PyError.exception "compile boom") from rfl] at h
  exact Except.noConfusion h

/-- Claim C3 as amended: a failure raised during the query-execution step is
caught and the call returns exactly the two-entry payload
`error = "Query failed: <message>"`, `query_parameters = <assembled set>`
(in particular no `bugs` entry); a failure raised during the
query-compilation step propagates to the caller uncaught. -/
theorem query_failure_containment_amended :
    (∀ (bz : Adapter) (product component status priority severity assigned_to creator :
        Option String) (limit offset : Int) (params : List (String × JVal)) (msg : String),
      bz.logged_in = true →
      bz.build_query (buildQueryParams product component status priority severity
        assigned_to creator limit offset) = .ok params →
      bz.query params = .error msg →
      query_bugs bz product component status priority severity assigned_to creator
          limit offset
        = .ok (JVal.obj [
            ("error", JVal.str ("Query failed: " ++ msg)),
            ("query_parameters", JVal.obj (buildQueryParams product component status
              priority severity assigned_to creator limit offset))]))
    ∧ (∀ (bz : Adapter) (product component status priority severity assigned_to creator :
        Option String) (limit offset : Int) (msg : String),
      bz.logged_in = true →
      bz.build_query (buildQueryParams product component status priority severity
        assigned_to creator limit offset) = .error msg →
      query_bugs bz product component status priority severity assigned_to creator
          limit offset = .error (.exception msg)) := by
  constructor
  · intro bz product component status priority severity assigned_to creator limit offset
      params msg hl hb hq
    simp [query_bugs, hl, hb, hq]
  · intro bz product component status priority severity assigned_to creator limit offset
      msg hl hb
    simp [query_bugs, hl, hb]

/-- Witness for the amended C3: both branches at concrete adapters. -/
theorem query_failure_containment_amended_witness :
    query_bugs adapterExecFail none none none none none none none 20 0
      = .ok (JVal.obj [("error", JVal.str "Query failed: exec boom"),
          ("query_parameters", JVal.obj [("limit", JVal.num 20), ("offset", JVal.num 0)])])
    ∧ query_bugs adapterCompileFail none none none none none none none 5 3
      = .error (.exception "compile boom") :=
  ⟨query_failure_containment_amended.1 adapterExecFail none none none none none none none
      20 0 (buildQueryParams none none none none none none none 20 0) "exec boom"
      rfl rfl rfl,
   query_failure_containment_amended.2 adapterCompileFail none none none none none none none
      5 3 "compile boom" rfl rfl⟩

/-- Claim C8 counterexample: the normalized record of a bug carrying every
modelled field does not have fourteen keys — `convert_bug_to_dict` emits
fifteen entries. -/
theorem bugrecord_fourteen_keys_cex :
    (jkeys (convert_bug_to_dict sampleBug)).length ≠ 14 := by decide

/-- Claim C8 as amended: for every bug object carrying the modelled fields,
the normalized record has exactly the fifteen documented keys, in source
order, with `keywords` semicolon-joined and `groups` space-joined (for
sequences of any length, including empty and multi-element ones). -/
theorem normalizer_completeness_amended (bug : Bug) :
    jkeys (convert_bug_to_dict bug)
      = ["product_name", "bug_id", "bug_priority", "created", "status", "summary",
         "severity", "bug_cc", "creator", "platform", "keywords", "component",
         "groups", "weburl", "confirmed"]
    ∧ (jkeys (convert_bug_to_dict bug)).length = 15
    ∧ jget (convert_bug_to_dict bug) "keywords"
        = some (JVal.str (String.intercalate ";" bug.keywords))
    ∧ jget (convert_bug_to_dict bug) "groups"
        = some (JVal.str (String.intercalate " " bug.groups)) :=
  ⟨rfl, rfl, rfl, rfl⟩

/-- Claim C4: the assembled query-parameter set always carries
`limit = min(caller limit, 20)`; in particular a caller limit of 1000 is
clamped to 20 and a caller limit of 5 is kept. -/
theorem limit_clamping (product component status priority severity assigned_to creator :
    Option String) (limit offset : Int) :
    getVal (buildQueryParams product component status priority severity assigned_to creator
      limit offset) "limit" = some (JVal.num (min limit 20))
    ∧ getVal (buildQueryParams none none none none none none none 1000 0) "limit"
        = some (JVal.num 20)
    ∧ getVal (buildQueryParams none none none none none none none 5 0) "limit"
        = some (JVal.num 5) := by
  refine ⟨?_, rfl, rfl⟩
  simp only [buildQueryParams, List.append_assoc]
  rw [getVal_optEntry_append "product" product "SUSEConnect" _ "limit" rfl,
      getVal_optEntry_append "component" component "General" _ "limit" rfl,
      getVal_optEntry_append "status" status "NEW" _ "limit" rfl,
      getVal_optEntry_append "priority" priority "P2 - High" _ "limit" rfl,
      getVal_optEntry_append "severity" severity "Medium" _ "limit" rfl,
      getVal_optEntry_append "assigned_to" assigned_to "" _ "limit" rfl,
      getVal_optEntry_append "creator" creator "" _ "limit" rfl]
  rfl

/-- Claim C5: a filter key appears in the assembled query-parameter set
exactly when the caller supplied a non-empty value for it; `limit` and
`offset` always appear; with no filter arguments (and the default limit 20
and offset 0) the set is exactly `[limit, offset]`. -/
theorem omission_rule :
    (∀ (product component status priority severity assigned_to creator : Option String)
       (limit offset : Int),
       hasKey (buildQueryParams product component status priority severity assigned_to
         creator limit offset) "product" = truthy product
       ∧ hasKey (buildQueryParams product component status priority severity assigned_to
           creator limit offset) "component" = truthy component
       ∧ hasKey (buildQueryParams product component status priority severity assigned_to
           creator limit offset) "status" = truthy status
       ∧ hasKey (buildQueryParams product component status priority severity assigned_to
           creator limit offset) "priority" = truthy priority
       ∧ hasKey (buildQueryParams product component status priority severity assigned_to
           creator limit offset) "severity" = truthy severity
       ∧ hasKey (buildQueryParams product component status priority severity assigned_to
           creator limit offset) "assigned_to" = truthy assigned_to
       ∧ hasKey (buildQueryParams product component status priority severity assigned_to
           creator limit offset) "creator" = truthy creator
       ∧ hasKey (buildQueryParams product component status priority severity assigned_to
           creator limit offset) "limit" = true
       ∧ hasKey (buildQueryParams product component status priority severity assigned_to
           creator limit offset) "offset" = true)
    ∧ buildQueryParams none none none none none none none 20 0
        = [("limit", JVal.num 20), ("offset", JVal.num 0)] := by
  constructor
  · intro product component status priority severity assigned_to creator limit offset
    refine ⟨?_, ?_, ?_, ?_, ?_, ?_, ?_, ?_, ?_⟩ <;>
      simp only [buildQueryParams, List.append_assoc, hasKey_optEntry_append] <;>
      simp [hasKey]
  · rfl

/-- Claim C9: configuration construction fails for every URL that does not
start with `http://` or `https://`, for every port outside 1-65535, and for
every log level whose upper-cased value is outside the fixed enum; for
every accepted URL the stored value is the input with its trailing slashes
stripped (in particular it never ends in a slash). -/
theorem config_rejection_normalization :
    (∀ (url : String) (port : Int) (lvl : String),
      (startswith url "http://" || startswith url "https://") = false →
      (mkBugzillaConfig url port lvl).isOk = false)
    ∧ (∀ (url : String) (port : Int) (lvl : String),
      (port < 1 ∨ 65535 < port) →
      (mkBugzillaConfig url port lvl).isOk = false)
    ∧ (∀ (url : String) (port : Int) (lvl : String),
      str_upper lvl ∉ valid_levels →
      (mkBugzillaConfig url port lvl).isOk = false)
    ∧ (∀ (url : String) (port : Int) (lvl : String) (cfg : BugzillaConfig),
      mkBugzillaConfig url port lvl = .ok cfg →
      cfg.bugzilla_url = rstrip_slash url ∧ cfg.bugzilla_url.data.getLast? ≠ some '/') := by
  refine ⟨?_, ?_, ?_, ?_⟩
  · intro url port lvl h
    simp [mkBugzillaConfig, validate_url, h, Except.isOk, Except.toBool, Bind.bind, Except.bind]
  · intro url port lvl h
    have hnp : ¬(1 ≤ port ∧ port ≤ 65535) := by omega
    cases hu : validate_url url with
    | error e => simp [mkBugzillaConfig, hu, Except.isOk, Except.toBool, Bind.bind, Except.bind]
    | ok u =>
      simp [mkBugzillaConfig, hu, validate_port, hnp, Except.isOk, Except.toBool,
        Bind.bind, Except.bind]
  · intro url port lvl h
    cases hu : validate_url url with
    | error e => simp [mkBugzillaConfig, hu, Except.isOk, Except.toBool, Bind.bind, Except.bind]
    | ok u =>
      cases hp2 : validate_port port with
      | error e =>
        simp [mkBugzillaConfig, hu, hp2, Except.isOk, Except.toBool, Bind.bind, Except.bind]
      | ok p =>
        simp [mkBugzillaConfig, hu, hp2, validate_log_level, h, Except.isOk, Except.toBool,
          Bind.bind, Except.bind]
  · intro url port lvl cfg h
    unfold mkBugzillaConfig at h
    cases hu : validate_url url with
    | error e => rw [hu] at h; simp [Bind.bind, Except.bind] at h
    | ok u =>
      rw [hu] at h
      cases hp2 : validate_port port with
      | error e => rw [hp2] at h; simp [Bind.bind, Except.bind] at h
      | ok p =>
        rw [hp2] at h
        cases hl2 : validate_log_level lvl with
        | error e => rw [hl2] at h; simp [Bind.bind, Except.bind] at h
        | ok l =>
          rw [hl2] at h
          simp only [Bind.bind, Except.bind, Except.ok.injEq] at h
          unfold validate_url at hu
          split at hu
          · have hue : rstrip_slash url = u := by
              simpa using hu
            subst h
            refine ⟨hue.symm, ?_⟩
            rw [← hue]
            simp only [rstrip_slash]
            intro hcon
            rw [List.getLast?_reverse] at hcon
            have h3 := List.head?_dropWhile_not (fun c => c == '/') url.data.reverse
            rw [hcon] at h3
            simp at h3
          · exact absurd hu (by simp)

/-- Witness for C9: a scheme-less URL, ports 0 and 70000, and log level
`TRACE` are each rejected; the accepted URL `https://bugzilla.suse.com//`
is stored without its trailing slashes. -/
theorem config_rejection_normalization_witness :
    (mkBugzillaConfig "bugzilla.suse.com" 8080 "INFO").isOk = false
    ∧ (mkBugzillaConfig "https://bugzilla.suse.com" 0 "INFO").isOk = false
    ∧ (mkBugzillaConfig "https://bugzilla.suse.com" 70000 "INFO").isOk = false
    ∧ (mkBugzillaConfig "https://bugzilla.suse.com" 8080 "TRACE").isOk = false
    ∧ ((BugzillaConfig.mk "https://bugzilla.suse.com" 8080 "INFO").bugzilla_url
        = rstrip_slash "https://bugzilla.suse.com//"
      ∧ (BugzillaConfig.mk "https://bugzilla.suse.com" 8080
          "INFO").bugzilla_url.data.getLast? ≠ some '/') :=
  ⟨config_rejection_normalization.1 "bugzilla.suse.com" 8080 "INFO" (by decide),
   config_rejection_normalization.2.1 "https://bugzilla.suse.com" 0 "INFO"
     (Or.inl (by decide)),
   config_rejection_normalization.2.1 "https://bugzilla.suse.com" 70000 "INFO"
     (Or.inr (by decide)),
   config_rejection_normalization.2.2.1 "https://bugzilla.suse.com" 8080 "TRACE"
     (by decide),
   config_rejection_normalization.2.2.2 "https://bugzilla.suse.com//" 8080 "info"
     (BugzillaConfig.mk "https://bugzilla.suse.com" 8080 "INFO") (by rfl)⟩
